import Mathlib

/-!
Verification of the `JobManager`/`_Job` subsystem of `ozflux_parallel.py`.

A shallow embedding of `src/ozflux-lpjg/ozflux_parallel.py`.  Python floats
are modelled as rationals (`ℚ`); the operations the module performs on them
are `+`, `*` and `/`, which agree with real arithmetic except for rounding,
and every property below is exercised away from division by zero.  Python
exceptions are modelled by the `PyErr` type and `Except`-valued results.
Side effects are made explicit: the "progress sink" is the sequence of
arguments passed to `ozflux_logging.log_progress`, collected in a list.

A central fact about the source, which the embedding mirrors statement by
statement: each of `add_job`, `run_parallel` and `run_single_threaded`
begins with `with self._lock.acquire():` where `self._lock` is a
`multiprocessing.BoundedSemaphore(1)`.  `acquire()` returns the boolean
`True` (after decrementing the semaphore, or blocking when the count is 0),
and the `with` statement then applies the context-manager protocol to that
boolean, which raises `TypeError` before the body of the `with` block runs;
the semaphore is never released.  The bodies of those `with` blocks are
therefore unreachable; they are embedded separately (as `..._body`
definitions) so that statements about them can still be made.
-/

namespace Ozflux

/-- Decidable equality for `Except`, used to evaluate concrete outcomes. -/
instance {ε α : Type} [DecidableEq ε] [DecidableEq α] : DecidableEq (Except ε α) := fun a b =>
  match a, b with
  | Except.ok a, Except.ok b =>
      if h : a = b then Decidable.isTrue (congrArg Except.ok h)
      else Decidable.isFalse (fun hc => h (Except.ok.inj hc))
  | Except.error a, Except.error b =>
      if h : a = b then Decidable.isTrue (congrArg Except.error h)
      else Decidable.isFalse (fun hc => h (Except.error.inj hc))
  | Except.ok _, Except.error _ => Decidable.isFalse (fun hc => Except.noConfusion hc)
  | Except.error _, Except.ok _ => Decidable.isFalse (fun hc => Except.noConfusion hc)

/-- Python exception outcomes arising in `ozflux_parallel.py`.

* `typeErrorWithBool` — `with <bool>:`: a `bool` does not implement the
  context-manager protocol, so the `with` statement raises `TypeError`.
* `blocked` — `BoundedSemaphore.acquire()` on a semaphore whose count is 0
  blocks forever; we model the permanently-blocked call as this outcome.
* `attrError name` — `AttributeError` reading attribute `name`, which was
  never assigned on the object.
* `eofError` — `Connection.recv` on an exhausted pipe whose write end is
  closed.
* `valueErrorUnpack` — `(progress, process_index) = msg` where `msg` is not
  a pair.
* `indexError` — `self._jobs[id]` with `id` out of range.
* `invalidArgument` — never raised anywhere in the source; this constructor
  exists only so that statements can compare the errors the code does raise
  against the `InvalidArgument` error named by the specification.
* `workError` — an exception raised by a caller-supplied work function. -/
inductive PyErr where
  | typeErrorWithBool
  | blocked
  | attrError (name : String)
  | eofError
  | valueErrorUnpack
  | indexError
  | invalidArgument
  | workError
  deriving DecidableEq

/-- A caller-supplied work function `func : Callable[[Callable[[float], None]], None]`.
All a work function can do, as far as this subsystem observes, is invoke its
progress callback some number of times with float arguments, in order, and
then either return normally or raise.  `reports` is that ordered list of
callback arguments and `raises` tells whether the function ends by raising
(after having issued all of `reports`). -/
structure WorkFunc where
  reports : List ℚ
  raises : Bool
  deriving DecidableEq

/-- `_Job.__init__` (ozflux_parallel.py lines 9-28): a job records its `id`,
its integer `weight`, its work function `func`, and its mutable `progress`
field initialised to `0.0`.  The two pipe endpoints (`progress_reader`,
`progress_writer`) have no manager-visible state of their own here; the
worker-side interaction with the write endpoint is modelled by `Job.run`
below. -/
structure Job where
  id : ℕ
  weight : ℤ
  func : WorkFunc
  progress : ℚ
  deriving DecidableEq

/-- `_Job._progress_local` (lines 30-40): sets `self.progress = progress`,
computes `overall = (start + self.weight * progress) / total_weight` and
passes `overall` to `ozflux_logging.log_progress`.  Returns the updated job
and the value logged. -/
def _progress_local (j : Job) (progress start total_weight : ℚ) : Job × ℚ :=
  ({ j with progress := progress },
    (start + (j.weight : ℚ) * progress) / total_weight)

/-- The callback loop of `_Job.run_local`: each value the work function
passes to its callback goes through `_progress_local`.  Returns the job
after all callback invocations together with the list of values logged,
in order. -/
def runLocalAux (start total : ℚ) : Job → List ℚ → Job × List ℚ
  | j, [] => (j, [])
  | j, p :: rest =>
      let jl := _progress_local j p start total
      let r := runLocalAux start total jl.1 rest
      (r.1, jl.2 :: r.2)

/-- `_Job.run_local` (lines 49-56): calls `self.func` with the callback
`lambda p: self._progress_local(p, start, total_weight)`.  Result: the job
after the run, the logged values, and whether the work function raised
(in which case the exception propagates to the caller of `run_local`). -/
def Job.run_local (j : Job) (start total : ℚ) : Job × List ℚ × Bool :=
  let r := runLocalAux start total j j.func.reports
  (r.1, r.2, j.func.raises)

/-- A message travelling on a job's progress pipe.  `_Job.run` sends the
pairs `(p, self.id)`; Python's pipe is untyped, so a message that is not a
pair (`other`) is also representable — unpacking it fails. -/
inductive PipeMsg where
  | pair (p : ℚ) (id : ℕ)
  | other
  deriving DecidableEq

/-- The observable behaviour of one execution of `_Job.run` inside a worker
process: the messages sent on the pipe, whether line 47
(`self.progress_writer.close()`) executed, and whether the work function's
exception propagated out of `run`. -/
structure WorkerRun where
  sent : List PipeMsg
  writerClosed : Bool
  raised : Bool
  deriving DecidableEq

/-- `_Job.run` (lines 42-47): calls `self.func` with
`lambda p: self.progress_writer.send((p, self.id))`, then — only if the
work function returned normally — closes the write endpoint.  There is no
`try`/`finally`: when `func` raises, the exception propagates out of `run`
and the `close()` on line 47 is skipped. -/
def Job.run (j : Job) : WorkerRun :=
  { sent := j.func.reports.map (fun p => PipeMsg.pair p j.id)
  , writerClosed := !j.func.raises
  , raised := j.func.raises }

/-- `JobManager` state.  `lockCount` is the count of the
`multiprocessing.BoundedSemaphore(1)` created in `__init__` (line 74):
`1` means free, `0` means held.  Note that `__init__` (lines 59-74)
initialises only `allow_parallel`, `_total_weight`, `_jobs` and `_lock`;
the attributes `_job_weights` (read by `add_job`, line 118) and `_readers`
(read by `_wait`, line 161) are never assigned anywhere in the class, which
the embedding reflects by their absence from this state. -/
structure JobManager where
  allow_parallel : Bool
  total_weight : ℤ
  jobs : List Job
  lockCount : ℕ
  deriving DecidableEq

/-- `JobManager.__init__(allow_parallel)` (lines 59-74): `_total_weight = 0`,
`_jobs = []`, `_lock = BoundedSemaphore(1)`. -/
def mkJobManager (allow_parallel : Bool) : JobManager :=
  { allow_parallel := allow_parallel
  , total_weight := 0
  , jobs := []
  , lockCount := 1 }

/-- The body of `add_job`'s `with` block (lines 113-134), which the `with`
statement never reaches.  Were it executed, its first effectful statement
`self._job_weights.append(weight)` (line 118) would raise `AttributeError`,
because `_job_weights` is never initialised; everything after it —
`self._total_weight += weight`, the `_Job(job_id, func, reader, writer)`
call (which moreover omits the `weight` argument required by
`_Job.__init__`), and `self._jobs.append(job)` — is dead code. -/
def JobManager.add_job_body (m : JobManager) (_func : WorkFunc) (_weight : ℤ) :
    Except PyErr Unit × JobManager :=
  (Except.error (PyErr.attrError "_job_weights"), m)

/-- `JobManager.add_job` (lines 96-134).  `with self._lock.acquire():`
first runs `acquire()` — blocking forever when the semaphore count is 0,
otherwise decrementing it and returning `True` — and then raises
`TypeError` applying the context-manager protocol to that boolean.  The
body (`add_job_body`) never runs and the semaphore is never released. -/
def JobManager.add_job (m : JobManager) (_func : WorkFunc) (_weight : ℤ) :
    Except PyErr Unit × JobManager :=
  if m.lockCount = 0 then
    (Except.error PyErr.blocked, m)
  else
    (Except.error PyErr.typeErrorWithBool, { m with lockCount := m.lockCount - 1 })

/-- Result of a `run_single_threaded` call: the Python outcome, the manager
state afterwards, the values passed to `ozflux_logging.log_progress` (in
order), and the ids of the jobs whose work function was invoked. -/
structure SeqRunResult where
  result : Except PyErr Unit
  state : JobManager
  logs : List ℚ
  ran : List ℕ
  deriving DecidableEq

/-- Outcome of the loop at lines 151-154 over a list of jobs:
`cum_weight = 0; for job in jobs: job.run_local(cum_weight, total);
cum_weight += job.weight`.  A work function that raises aborts the loop
(no `try` around `run_local`): the remaining jobs keep their state. -/
def runJobsSeq (total : ℚ) : ℚ → List Job → Except PyErr Unit × List Job × List ℚ × List ℕ
  | _, [] => (Except.ok (), [], [], [])
  | cum, j :: rest =>
      let r := j.run_local cum total
      if r.2.2 then
        (Except.error PyErr.workError, r.1 :: rest, r.2.1, [j.id])
      else
        let k := runJobsSeq total (cum + (j.weight : ℚ)) rest
        (k.1, r.1 :: k.2.1, r.2.1 ++ k.2.2.1, j.id :: k.2.2.2)

/-- The body of `run_single_threaded`'s `with` block (lines 151-154), which
the `with` statement never reaches: run every job in order via `run_local`,
accumulating `cum_weight`. -/
def JobManager.run_single_threaded_body (m : JobManager) : SeqRunResult :=
  let r := runJobsSeq (m.total_weight : ℚ) 0 m.jobs
  { result := r.1
  , state := { m with jobs := r.2.1 }
  , logs := r.2.2.1
  , ran := r.2.2.2 }

/-- `JobManager.run_single_threaded` (lines 145-154).  As in `add_job`, the
`with self._lock.acquire():` statement raises before the body: no job is
run, nothing is logged, and the semaphore stays held. -/
def JobManager.run_single_threaded (m : JobManager) : SeqRunResult :=
  if m.lockCount = 0 then
    { result := Except.error PyErr.blocked, state := m, logs := [], ran := [] }
  else
    { result := Except.error PyErr.typeErrorWithBool
    , state := { m with lockCount := m.lockCount - 1 }
    , logs := []
    , ran := [] }

/-- Result of a `run_parallel` call: the Python outcome, the manager state
afterwards, the ids of the jobs started as worker processes, and the ids of
the workers joined. -/
structure ParRunResult where
  result : Except PyErr Unit
  state : JobManager
  started : List ℕ
  joined : List ℕ
  deriving DecidableEq

/-- `JobManager._wait` (lines 156-175).  Its first statement,
`while self._readers:`, reads the attribute `_readers`, which is never
assigned anywhere in the class, so `_wait` raises `AttributeError`
immediately; neither the polling loop nor the `join` loop at lines 174-175
is reachable through it. -/
def JobManager._wait (m : JobManager) : Except PyErr Unit × JobManager :=
  (Except.error (PyErr.attrError "_readers"), m)

/-- The body of `run_parallel`'s `with` block (lines 141-143), which the
`with` statement never reaches: start every registered job as a worker
process, then call `_wait()` — which raises `AttributeError` at once, so no
worker is ever joined even on this unreachable path. -/
def JobManager.run_parallel_body (m : JobManager) : ParRunResult :=
  { result := (m._wait).1
  , state := (m._wait).2
  , started := m.jobs.map Job.id
  , joined := [] }

/-- `JobManager.run_parallel` (lines 136-143).  As in `add_job`, the
`with self._lock.acquire():` statement raises before the body: no worker is
started, `_wait` is never called, no worker is joined, and the semaphore
stays held. -/
def JobManager.run_parallel (m : JobManager) : ParRunResult :=
  if m.lockCount = 0 then
    { result := Except.error PyErr.blocked, state := m, started := [], joined := [] }
  else
    { result := Except.error PyErr.typeErrorWithBool
    , state := { m with lockCount := m.lockCount - 1 }
    , started := []
    , joined := [] }

/-- `JobManager._progress_reporter` (lines 76-94): look up
`job = self._jobs[id]`, set
`job.progress = (job.weight / self._total_weight) * progress`, compute
`aggregate_progress = sum([j.progress for j in self._jobs])` and pass it to
`ozflux_logging.log_progress`.  Returns the updated manager and the value
logged.  (`ℚ` division by zero yields 0 where Python would raise
`ZeroDivisionError`; every statement proved below uses a nonzero
`total_weight`.) -/
def JobManager._progress_reporter (m : JobManager) (progress : ℚ) (id : ℕ) :
    Except PyErr (JobManager × ℚ) :=
  match m.jobs[id]? with
  | none => Except.error PyErr.indexError
  | some job =>
      let weight : ℚ := (job.weight : ℚ) / (m.total_weight : ℚ)
      let job2 := { job with progress := weight * progress }
      let jobs2 := m.jobs.set id job2
      Except.ok ({ m with jobs := jobs2 }, (jobs2.map Job.progress).sum)

/-- Outcome of one pass of the `try` block at lines 163-170 for one reader. -/
inductive ReaderStep where
  /-- `recv` raised `EOFError`; the `except EOFError` handler removed the
  reader from `self._readers` and the loop continues. -/
  | removed
  /-- a `(progress, id)` message was received and `_progress_reporter` ran:
  `rest` is what remains on the pipe, `m` the updated manager, `logged` the
  aggregate value passed to `log_progress`. -/
  | reported (rest : List PipeMsg) (m : JobManager) (logged : ℚ)
  deriving DecidableEq

/-- The `try` block of the wait loop (lines 163-170) for a single reader
whose write end has been closed, so that its remaining content is a finite
list of messages followed by end-of-stream.  On an exhausted pipe, `poll()`
is `True` and `recv()` raises `EOFError` — whether the writer closed
normally (line 47) or abruptly (worker death) — and the `except EOFError:`
handler removes the reader.  On a `(progress, id)` message, unpacking
succeeds and `_progress_reporter` runs; any error it raises (e.g.
`IndexError`) is not an `EOFError` and propagates.  On a malformed message,
the unpacking `(progress, process_index) = msg` raises an error that the
`except EOFError:` clause does not catch, so it propagates out of `_wait`
to the caller of `run_parallel`. -/
def readerStep (m : JobManager) : List PipeMsg → Except PyErr ReaderStep
  | [] => Except.ok ReaderStep.removed
  | PipeMsg.pair p id :: rest =>
      match m._progress_reporter p id with
      | Except.ok r => Except.ok (ReaderStep.reported rest r.1 r.2)
      | Except.error e => Except.error e
  | PipeMsg.other :: _ => Except.error PyErr.valueErrorUnpack

/-! Claims. -/

/-- C1: every public `JobManager` operation (`add_job`, `run_parallel`,
`run_single_threaded`) on a freshly constructed manager raises before
executing its body — `with self._lock.acquire():` applies the
context-manager protocol to the boolean returned by
`BoundedSemaphore.acquire` — so no job is ever appended, `_total_weight`
stays 0, and no registered job's work function is ever invoked (no worker
started or joined, no callback run, nothing logged). -/
theorem C1_fresh_manager_every_operation_raises
    (allow : Bool) (func : WorkFunc) (weight : ℤ) :
    ((mkJobManager allow).add_job func weight).1 = Except.error PyErr.typeErrorWithBool
  ∧ ((mkJobManager allow).add_job func weight).2.jobs = []
  ∧ ((mkJobManager allow).add_job func weight).2.total_weight = 0
  ∧ ((mkJobManager allow).run_parallel).result = Except.error PyErr.typeErrorWithBool
  ∧ ((mkJobManager allow).run_parallel).started = []
  ∧ ((mkJobManager allow).run_parallel).joined = []
  ∧ ((mkJobManager allow).run_single_threaded).result = Except.error PyErr.typeErrorWithBool
  ∧ ((mkJobManager allow).run_single_threaded).logs = []
  ∧ ((mkJobManager allow).run_single_threaded).ran = [] :=
  ⟨rfl, rfl, rfl, rfl, rfl, rfl, rfl, rfl, rfl⟩

/-- C2 counterexample: `add_job` with weight `-1 ≤ 0` on a fresh manager
fails — but with the `TypeError` of the `with` statement, not with
`InvalidArgument`: no `InvalidArgument` check exists anywhere in the code. -/
theorem C2_counterexample :
    ((mkJobManager false).add_job ⟨[], false⟩ (-1)).1 = Except.error PyErr.typeErrorWithBool
  ∧ ((mkJobManager false).add_job ⟨[], false⟩ (-1)).1 ≠ Except.error PyErr.invalidArgument :=
  ⟨rfl, by decide⟩

/-- C2 (amended): for every weight `≤ 0` (indeed for every weight),
`add_job` fails with an error that is not `InvalidArgument` — the
`TypeError` of the `with` statement, or a permanent block when the
semaphore is already held — and after the failed call both `_total_weight`
and the job list are exactly as they were before. -/
theorem C2_add_job_fails_without_invalid_argument
    (m : JobManager) (func : WorkFunc) (weight : ℤ) (_hw : weight ≤ 0) :
    (∃ e, (m.add_job func weight).1 = Except.error e ∧ e ≠ PyErr.invalidArgument)
  ∧ (m.add_job func weight).2.jobs = m.jobs
  ∧ (m.add_job func weight).2.total_weight = m.total_weight := by
  by_cases h : m.lockCount = 0
  · unfold JobManager.add_job
    rw [if_pos h]
    exact ⟨⟨PyErr.blocked, rfl, by decide⟩, rfl, rfl⟩
  · unfold JobManager.add_job
    rw [if_neg h]
    exact ⟨⟨PyErr.typeErrorWithBool, rfl, by decide⟩, rfl, rfl⟩

/-- C2 witness: the amended statement at a fresh manager and weight `-1`. -/
theorem C2_witness :
    (∃ e, ((mkJobManager false).add_job ⟨[], false⟩ (-1)).1 = Except.error e
      ∧ e ≠ PyErr.invalidArgument)
  ∧ ((mkJobManager false).add_job ⟨[], false⟩ (-1)).2.jobs = (mkJobManager false).jobs
  ∧ ((mkJobManager false).add_job ⟨[], false⟩ (-1)).2.total_weight
      = (mkJobManager false).total_weight :=
  C2_add_job_fails_without_invalid_argument (mkJobManager false) ⟨[], false⟩ (-1) (by decide)

/-- A manager holding jobs of weights `[1, 3]`, constructed directly: no
state with a nonempty job list is reachable through the API, because
`add_job` always raises (C1/C5).  Job 0's work function reports local
progress `1.0` once; job 1's reports nothing. -/
def C3manager : JobManager :=
  { allow_parallel := false
  , total_weight := 4
  , jobs :=
      [ { id := 0, weight := 1, func := { reports := [1], raises := false }, progress := 0 }
      , { id := 1, weight := 3, func := { reports := [], raises := false }, progress := 0 } ]
  , lockCount := 1 }

/-- C3: `run_single_threaded` raises at the `with` statement before
invoking any job's callback, so nothing is ever reported — even on a
manager already holding jobs with weights `[1, 3]`.  The claimed formula
lives in the code that never runs: `_progress_local` logs
`(start + weight * p) / total_weight` on every invocation, and the
unreachable body of `run_single_threaded` would indeed log `1/4 = 0.25`
after job 0 of `[1, 3]` reports local progress `1.0`. -/
theorem C3_sequential_run_raises_before_any_callback :
    ((mkJobManager false).run_single_threaded).result = Except.error PyErr.typeErrorWithBool
  ∧ ((mkJobManager false).run_single_threaded).logs = []
  ∧ (C3manager.run_single_threaded).result = Except.error PyErr.typeErrorWithBool
  ∧ (C3manager.run_single_threaded).logs = []
  ∧ (C3manager.run_single_threaded).ran = []
  ∧ (∀ (j : Job) (p start total : ℚ),
      (_progress_local j p start total).2 = (start + (j.weight : ℚ) * p) / total)
  ∧ (C3manager.run_single_threaded_body).logs = [1/4] := by
  refine ⟨rfl, rfl, rfl, rfl, rfl, fun j p start total => rfl, ?_⟩
  norm_num [C3manager, JobManager.run_single_threaded_body, runJobsSeq,
    Job.run_local, runLocalAux, _progress_local]

/-- C5: no `add_job` call ever succeeds in appending a job or updating
`_total_weight`: the call raises at the `with` statement (shown at a fresh
manager with weight 5) and leaves the job list and `_total_weight` of any
manager untouched — so trivially `total_weight = sum of job weights`
whenever it held before.  Even the unreachable body would fail before
mutating anything: its first statement reads the never-initialised
`_job_weights` attribute. -/
theorem C5_add_job_never_appends :
    ((mkJobManager false).add_job ⟨[], false⟩ 5).1 = Except.error PyErr.typeErrorWithBool
  ∧ ((mkJobManager false).add_job ⟨[], false⟩ 5).2.jobs = []
  ∧ ((mkJobManager false).add_job ⟨[], false⟩ 5).2.total_weight = 0
  ∧ (∀ (m : JobManager) (f : WorkFunc) (w : ℤ),
      (m.add_job f w).2.jobs = m.jobs ∧ (m.add_job f w).2.total_weight = m.total_weight)
  ∧ (∀ (m : JobManager) (f : WorkFunc) (w : ℤ),
      (m.add_job_body f w).1 = Except.error (PyErr.attrError "_job_weights")
    ∧ (m.add_job_body f w).2 = m) := by
  refine ⟨rfl, rfl, rfl, fun m f w => ?_, fun m f w => ⟨rfl, rfl⟩⟩
  unfold JobManager.add_job
  split
  · exact ⟨rfl, rfl⟩
  · exact ⟨rfl, rfl⟩

/-- C6: `run_parallel` raises at the `with` statement: it starts no worker,
joins no worker, and never reaches the wait loop.  `_wait` itself raises
`AttributeError` at `while self._readers:` (the attribute is never
initialised), so even the unreachable body of `run_parallel` would join
nothing. -/
theorem C6_run_parallel_never_reaches_wait_or_join :
    ((mkJobManager true).run_parallel).result = Except.error PyErr.typeErrorWithBool
  ∧ ((mkJobManager true).run_parallel).started = []
  ∧ ((mkJobManager true).run_parallel).joined = []
  ∧ (∀ m : JobManager, (m.run_parallel).joined = [])
  ∧ (∀ m : JobManager, (m._wait).1 = Except.error (PyErr.attrError "_readers"))
  ∧ (∀ m : JobManager, (m.run_parallel_body).result = Except.error (PyErr.attrError "_readers")
      ∧ (m.run_parallel_body).joined = []) := by
  refine ⟨rfl, rfl, rfl, fun m => ?_, fun m => rfl, fun m => ⟨rfl, rfl⟩⟩
  unfold JobManager.run_parallel
  split
  · rfl
  · rfl

/-- C8: the semaphore is acquired but never released.  A first `add_job` on
a fresh manager leaves the semaphore held (count 0), so a second call
blocks forever in `acquire()`; `run_parallel` and `run_single_threaded`
likewise exit (by exception) with the semaphore still held. -/
theorem C8_lock_held_after_every_operation :
    ((mkJobManager false).add_job ⟨[], false⟩ 1).2.lockCount = 0
  ∧ (((mkJobManager false).add_job ⟨[], false⟩ 1).2.add_job ⟨[], false⟩ 1).1
      = Except.error PyErr.blocked
  ∧ ((mkJobManager true).run_parallel).state.lockCount = 0
  ∧ ((mkJobManager false).run_single_threaded).state.lockCount = 0 :=
  ⟨rfl, rfl, rfl, rfl⟩

/-- Job 0 of the C4 scenario: weight 1, reports nothing, progress 0. -/
def C4job0 : Job :=
  { id := 0, weight := 1, func := { reports := [], raises := false }, progress := 0 }

/-- A manager holding two weight-1 jobs (directly constructed: no state
with jobs is reachable through the API, see C1/C5), `total_weight = 2`. -/
def C4manager : JobManager :=
  { allow_parallel := true
  , total_weight := 2
  , jobs :=
      [ C4job0
      , { id := 1, weight := 1, func := { reports := [], raises := false }, progress := 0 } ]
  , lockCount := 1 }

/-- C4 counterexample: with two weight-1 jobs (`total_weight = 2`), after
`_progress_reporter 1.0 0` the value passed to `log_progress` is `1/2` —
which is `sum(j.progress)`, not `sum(j.progress) / total_weight = 1/4`:
`job.progress` already stores the weight-normalised contribution, and the
aggregate is not divided by `total_weight` a second time. -/
theorem C4_counterexample :
    (C4manager._progress_reporter 1 0).map Prod.snd = Except.ok ((1:ℚ)/2)
  ∧ (C4manager._progress_reporter 1 0).map
      (fun r => ((r.1.jobs.map Job.progress).sum) / (r.1.total_weight : ℚ))
      = Except.ok ((1:ℚ)/4)
  ∧ ((1:ℚ)/2) ≠ (1:ℚ)/4 := by
  refine ⟨?_, ?_, by norm_num⟩
  · norm_num [C4manager, C4job0, JobManager._progress_reporter, Except.map]
  · norm_num [C4manager, C4job0, JobManager._progress_reporter, Except.map]

/-- C4 (amended): given local progress `p ∈ [0,1]` and
`1 ≤ weight ≤ total_weight`, the bound `0 ≤ job.progress ≤ job.weight`
holds in both modes — but the two modes store different quantities and the
logged aggregates are: in parallel mode, `_progress_reporter` stores
`(weight/total_weight)·p` in `job.progress` and logs `sum(j.progress)`
(with no further division by `total_weight`); in sequential mode,
`_progress_local` stores the raw `p` and logs
`(start + weight·p)/total_weight`. -/
theorem C4_progress_semantics (m : JobManager) (job : Job) (i : ℕ) (p start : ℚ)
    (hj : m.jobs[i]? = some job)
    (hp0 : 0 ≤ p) (hp1 : p ≤ 1)
    (hw1 : 1 ≤ (job.weight : ℚ))
    (hwt : (job.weight : ℚ) ≤ (m.total_weight : ℚ)) :
    (m._progress_reporter p i
        = Except.ok
            ({ m with jobs :=
                          m.jobs.set i
                            ({ job with progress :=
                                          ((job.weight : ℚ) / (m.total_weight : ℚ)) * p }) },
              ((m.jobs.set i
                ({ job with progress := ((job.weight : ℚ) / (m.total_weight : ℚ)) * p })).map
                  Job.progress).sum)
      ∧ 0 ≤ ((job.weight : ℚ) / (m.total_weight : ℚ)) * p
      ∧ ((job.weight : ℚ) / (m.total_weight : ℚ)) * p ≤ (job.weight : ℚ))
  ∧ ((_progress_local job p start (m.total_weight : ℚ)).1.progress = p
      ∧ 0 ≤ p ∧ p ≤ (job.weight : ℚ)
      ∧ (_progress_local job p start (m.total_weight : ℚ)).2
          = (start + (job.weight : ℚ) * p) / (m.total_weight : ℚ)) := by
  have hw0 : (0:ℚ) ≤ (job.weight : ℚ) := le_trans zero_le_one hw1
  have ht1 : (1:ℚ) ≤ (m.total_weight : ℚ) := le_trans hw1 hwt
  have hdiv0 : (0:ℚ) ≤ (job.weight : ℚ) / (m.total_weight : ℚ) :=
    div_nonneg hw0 (le_trans zero_le_one ht1)
  refine ⟨⟨?_, mul_nonneg hdiv0 hp0, ?_⟩, rfl, hp0, le_trans hp1 hw1, rfl⟩
  · unfold JobManager._progress_reporter
    rw [hj]
  · calc ((job.weight : ℚ) / (m.total_weight : ℚ)) * p
        ≤ ((job.weight : ℚ) / (m.total_weight : ℚ)) * 1 :=
          mul_le_mul_of_nonneg_left hp1 hdiv0
    _ = (job.weight : ℚ) / (m.total_weight : ℚ) := mul_one _
    _ ≤ (job.weight : ℚ) := div_le_self hw0 ht1

/-- C4 witness: the amended statement at `C4manager`, job 0, `p = 1`. -/
theorem C4_witness :
    (C4manager._progress_reporter 1 0
        = Except.ok
            ({ C4manager with jobs :=
                                  C4manager.jobs.set 0
                                    ({ C4job0 with progress :=
                                          ((C4job0.weight : ℚ) / (C4manager.total_weight : ℚ)) * 1 }) },
              ((C4manager.jobs.set 0
                ({ C4job0 with progress :=
                    ((C4job0.weight : ℚ) / (C4manager.total_weight : ℚ)) * 1 })).map
                  Job.progress).sum)
      ∧ 0 ≤ ((C4job0.weight : ℚ) / (C4manager.total_weight : ℚ)) * 1
      ∧ ((C4job0.weight : ℚ) / (C4manager.total_weight : ℚ)) * 1 ≤ (C4job0.weight : ℚ))
  ∧ ((_progress_local C4job0 1 0 (C4manager.total_weight : ℚ)).1.progress = 1
      ∧ 0 ≤ (1:ℚ) ∧ (1:ℚ) ≤ (C4job0.weight : ℚ)
      ∧ (_progress_local C4job0 1 0 (C4manager.total_weight : ℚ)).2
          = (0 + (C4job0.weight : ℚ) * 1) / (C4manager.total_weight : ℚ)) :=
  C4_progress_semantics C4manager C4job0 0 1 0 rfl (by norm_num) le_rfl
    (by norm_num [C4job0]) (by norm_num [C4job0, C4manager])

/-- A job whose work function raises after reporting nothing. -/
def C7job : Job :=
  { id := 0, weight := 1, func := { reports := [], raises := true }, progress := 0 }

/-- C7 counterexample: for a work function that raises, `_Job.run` does
NOT close the worker-owned write endpoint — there is no `try`/`finally`,
so the `close()` on line 47 is skipped when the exception propagates. -/
theorem C7_counterexample :
    C7job.func.raises = true ∧ (C7job.run).writerClosed = false := by decide

/-- C7 (amended): `_Job.run` closes the write endpoint exactly when the
work function returns normally; a raising work function propagates its
error out of `run` with the endpoint unclosed (end-of-stream then depends
on process-exit cleanup outside this code).  The messages sent carry only
`(progress, id)` pairs, so no error detail is ever transported to the
manager; and `run_parallel` joins no worker at all, since it raises at the
`with` statement. -/
theorem C7_worker_close_and_join_behaviour (j : Job) :
    ((j.run).writerClosed = !j.func.raises)
  ∧ ((j.run).raised = j.func.raises)
  ∧ ((j.run).sent = j.func.reports.map (fun p => PipeMsg.pair p j.id))
  ∧ (∀ m : JobManager, (m.run_parallel).joined = []) := by
  refine ⟨rfl, rfl, rfl, fun m => ?_⟩
  unfold JobManager.run_parallel
  split
  · rfl
  · rfl

/-- A manager holding one weight-1 job (directly constructed). -/
def C9manager : JobManager :=
  { allow_parallel := true
  , total_weight := 1
  , jobs := [ { id := 0, weight := 1, func := { reports := [], raises := false }, progress := 0 } ]
  , lockCount := 1 }

/-- C9 counterexample: a malformed message is NOT treated like
end-of-stream: on an exhausted pipe the `except EOFError` handler removes
the reader and the loop continues, but a malformed message makes the
unpacking raise an error the handler does not catch, which propagates out
of the wait loop. -/
theorem C9_counterexample :
    readerStep C9manager [PipeMsg.other] = Except.error PyErr.valueErrorUnpack
  ∧ readerStep C9manager [] = Except.ok ReaderStep.removed
  ∧ (Except.error PyErr.valueErrorUnpack : Except PyErr ReaderStep)
      ≠ Except.ok ReaderStep.removed :=
  ⟨rfl, rfl, fun h => Except.noConfusion h⟩

/-- C9 (amended): in the wait loop's per-reader step, an abrupt closure is
indistinguishable from normal end-of-stream — `recv` raises `EOFError` in
both cases, the handler removes the endpoint and the loop continues without
raising — but a malformed message raises an uncaught error (`except` names
only `EOFError`) that escapes toward the caller of `run_parallel`. -/
theorem C9_eof_removed_malformed_raises (m : JobManager) (rest : List PipeMsg) :
    readerStep m [] = Except.ok ReaderStep.removed
  ∧ readerStep m (PipeMsg.other :: rest) = Except.error PyErr.valueErrorUnpack :=
  ⟨rfl, rfl⟩

/-- The job set shared by the two C10 managers: weights `[1, 3]`, the first
job reporting `1/2` then `1`, the second reporting `1`. -/
def C10jobs : List Job :=
  [ { id := 0, weight := 1, func := { reports := [1/2, 1], raises := false }, progress := 0 }
  , { id := 1, weight := 3, func := { reports := [1], raises := false }, progress := 0 } ]

/-- First C10 manager (parallel flag `true`). -/
def C10managerA : JobManager :=
  { allow_parallel := true, total_weight := 4, jobs := C10jobs, lockCount := 1 }

/-- Second C10 manager: same jobs, weights and lock state, different flag. -/
def C10managerB : JobManager :=
  { allow_parallel := false, total_weight := 4, jobs := C10jobs, lockCount := 1 }

/-- C10: sequential execution is deterministic — work functions are pure
(modelled by the list of values they report), and both the outcome and the
sequence of aggregate values passed to `log_progress` by
`run_single_threaded` (and by its `with`-block body, were it reachable)
depend only on the registered job list, the total weight and the lock
state.  Two runs over the same registered job set are identical. -/
theorem C10_sequential_runs_deterministic (m1 m2 : JobManager)
    (hjobs : m1.jobs = m2.jobs) (htw : m1.total_weight = m2.total_weight)
    (hlock : m1.lockCount = m2.lockCount) :
    (m1.run_single_threaded).result = (m2.run_single_threaded).result
  ∧ (m1.run_single_threaded).logs = (m2.run_single_threaded).logs
  ∧ (m1.run_single_threaded_body).result = (m2.run_single_threaded_body).result
  ∧ (m1.run_single_threaded_body).logs = (m2.run_single_threaded_body).logs := by
  unfold JobManager.run_single_threaded JobManager.run_single_threaded_body
  rw [hjobs, htw, hlock]
  by_cases h : m2.lockCount = 0 <;> simp [h]

/-- C10 witness: the two concrete managers over `C10jobs`. -/
theorem C10_witness :
    (C10managerA.run_single_threaded).result = (C10managerB.run_single_threaded).result
  ∧ (C10managerA.run_single_threaded).logs = (C10managerB.run_single_threaded).logs
  ∧ (C10managerA.run_single_threaded_body).result
      = (C10managerB.run_single_threaded_body).result
  ∧ (C10managerA.run_single_threaded_body).logs
      = (C10managerB.run_single_threaded_body).logs :=
  C10_sequential_runs_deterministic C10managerA C10managerB rfl rfl rfl

end Ozflux
